import Mathlib

/-!
Shallow embedding of the `logger` Go package (`logger.go`): a leveled
logging facility with colored console output, an optional exception-capture
callback, and webhook notifications over HTTP.

Side effects are modelled as traces: each logging method returns the list
of externally observable events it performs, in order.  The external world
(wall clock, the JSON encoder, and the HTTP transport) is an explicit
environment record.  Format strings follow Go's `fmt` conventions; the
model covers the verbs actually used by the package and its callers in the
claims (`%s`, `%v`, `%w`, `%%`), with Go's `%!s(MISSING)` / `%!(EXTRA ...)`
behaviour for arity mismatches.  Variadic arguments are pre-rendered
strings.
-/

namespace logger

/-- One externally observable side effect of a logging call:
an invocation of the `CaptureExceptionFunc` callback (with the error text),
one write of a formatted line to the output sink (`log.Printf`),
one HTTP POST attempt (`http.Post`), or process termination (`os.Exit`). -/
inductive Event where
  | callback (errText : String)
  | emit (line : String)
  | post (url : String) (contentType : String) (body : String)
  | exit (code : Nat)
deriving Repr, DecidableEq

/-- `true` exactly on `Event.post` events. -/
def isPost : Event → Bool
  | Event.post _ _ _ => true
  | _ => false

/-- `true` exactly on `Event.emit` events. -/
def isEmit : Event → Bool
  | Event.emit _ => true
  | _ => false

/-- `true` exactly on `Event.callback` events. -/
def isCallback : Event → Bool
  | Event.callback _ => true
  | _ => false

/-- `true` exactly on `Event.exit` events. -/
def isExit : Event → Bool
  | Event.exit _ => true
  | _ => false

/-- Model of Go `fmt.Sprintf` restricted to string arguments, over the
format's character list.  The verbs `%s`, `%v`, `%w` each consume one
argument and insert it verbatim (arguments are never re-scanned for
verbs); `%%` is a literal percent; a verb with no argument left renders
Go's `%!<verb>(MISSING)`; arguments left over after the format is
exhausted render Go's `%!(EXTRA string=..., ...)` suffix. -/
def sprintfAux : List Char → List String → List Char
  | [], [] => []
  | [], a :: as =>
      ("%!(EXTRA " ++ String.intercalate ", " ((a :: as).map (fun x => "string=" ++ x)) ++ ")").data
  | '%' :: '%' :: cs, as => '%' :: sprintfAux cs as
  | '%' :: 's' :: cs, a :: as => a.data ++ sprintfAux cs as
  | '%' :: 'v' :: cs, a :: as => a.data ++ sprintfAux cs as
  | '%' :: 'w' :: cs, a :: as => a.data ++ sprintfAux cs as
  | '%' :: 's' :: cs, [] => "%!s(MISSING)".data ++ sprintfAux cs []
  | '%' :: 'v' :: cs, [] => "%!v(MISSING)".data ++ sprintfAux cs []
  | '%' :: 'w' :: cs, [] => "%!w(MISSING)".data ++ sprintfAux cs []
  | c :: cs, as => c :: sprintfAux cs as

/-- Model of Go `fmt.Sprintf` (see `sprintfAux`). -/
def sprintf (format : String) (v : List String) : String :=
  String.mk (sprintfAux format.data v)

/-- `charsLead pat s`: the character list `pat` is an initial segment of `s`. -/
def charsLead : List Char → List Char → Bool
  | [], _ => true
  | _ :: _, [] => false
  | p :: ps, c :: cs => p == c && charsLead ps cs

/-- `charsWithin pat s`: `pat` occurs contiguously somewhere inside `s`. -/
def charsWithin : List Char → List Char → Bool
  | pat, [] => charsLead pat []
  | pat, c :: cs => charsLead pat (c :: cs) || charsWithin pat cs

/-- `strContains s pat`: the string `pat` occurs as a contiguous substring
of `s` (used to state properties about emitted lines). -/
def strContains (s pat : String) : Bool :=
  charsWithin pat.data s.data

/-- The `LogLevel` constants of the package; `LogLevel` is a string type
in the source, so the level is modelled as `String`. -/
def INFO : String := "INFO"

/-- The `ERR` log level constant. -/
def ERR : String := "ERR"

/-- The `WARN` log level constant. -/
def WARN : String := "WARN"

/-- The `DEBUG` log level constant. -/
def DEBUG : String := "DEBUG"

/-- `WebhookConfig` defines the configuration for webhook notifications. -/
structure WebhookConfig where
  URL : String
  SendError : Bool
  SendFatal : Bool
  SendWarn : Bool
deriving Repr, DecidableEq

/-- The `Logger` record.  `CaptureExceptionFunc` is an optional callback in
the source; only its presence is relevant to the trace (its invocation is
recorded as an `Event.callback` carrying the error text it receives), so it
is modelled by the boolean `hasCaptureExceptionFunc`. -/
structure Logger where
  ServiceName : String
  LogContextName : String
  DebugEnabled : Bool
  hasCaptureExceptionFunc : Bool
  WebhookConfig : WebhookConfig
deriving Repr, DecidableEq

/-- `NewLogger` constructs a `Logger`; the source leaves
`CaptureExceptionFunc` unset (nil). -/
def NewLogger (serviceName logContextName : String) (debugEnabled : Bool)
    (webhookConfig : WebhookConfig) : Logger :=
  { ServiceName := serviceName
    LogContextName := logContextName
    DebugEnabled := debugEnabled
    hasCaptureExceptionFunc := false
    WebhookConfig := webhookConfig }

/-- The webhook payload struct built in `sendWebhook` (all fields are
strings in the source; `Level` has the string type `LogLevel`). -/
structure Payload where
  serviceName : String
  logContextName : String
  message : String
  level : String
  timestamp : String
deriving Repr, DecidableEq

/-- Outcome of one `http.Post` call: a transport-level error (connection
refused, timeout, DNS failure, ...) rendered as its `%v` text, or a
response with its numeric status code and status text (`resp.Status`). -/
inductive PostResult where
  | transportError (errText : String)
  | response (statusCode : Nat) (status : String)
deriving Repr, DecidableEq

/-- The external world of one logging call: the wall clock already
rendered by `time.Now().Format(time.RFC3339)`, the JSON encoder
(`json.Marshal`, whose result the code checks for an error), and the HTTP
transport (`http.Post`, keyed by url, content type and body). -/
structure Env where
  now : String
  marshal : Payload → Except String String
  post : String → String → String → PostResult

/-- The per-severity colored marker chosen by the `switch` in `Log`
(default branch: INFO). -/
def severityTag (logLevel : String) : String :=
  if logLevel = ERR then "\x1b[41m[ERR]\x1b[0m "
  else if logLevel = WARN then "\x1b[43m[WARN]\x1b[0m "
  else if logLevel = DEBUG then "\x1b[40m\x1b[37m[DEBUG]\x1b[0m "
  else "\x1b[44m[INFO]\x1b[0m "

/-- The service marker `fmt.Sprintf("\x1b[35m[%s]\x1b[0m ", l.ServiceName)`. -/
def serviceTag (l : Logger) : String :=
  sprintf "\x1b[35m[%s]\x1b[0m " [l.ServiceName]

/-- The string handed to the output sink: `log.Printf(prefixStr, v...)`
where `prefixStr = servicePrefix + severity marker + format`.  Note the
variadic arguments are applied to the whole concatenation. -/
def logLine (l : Logger) (logLevel format : String) (v : List String) : String :=
  sprintf (serviceTag l ++ severityTag logLevel ++ format) v

/-- `Logger.Log`: the core emit routine.  DEBUG messages are dropped when
`DebugEnabled` is false; otherwise exactly one formatted line goes to the
output sink. -/
def Logger.Log (l : Logger) (logLevel format : String) (v : List String) : List Event :=
  if logLevel = DEBUG ∧ l.DebugEnabled = false then []
  else [Event.emit (logLine l logLevel format v)]

/-- The payload constructed by `sendWebhook` (message formatted from the
call's format and arguments, timestamp taken from the wall clock at the
delivery attempt). -/
def mkPayload (l : Logger) (env : Env) (logLevel format : String) (v : List String) : Payload :=
  { serviceName := l.ServiceName
    logContextName := l.LogContextName
    message := sprintf format v
    level := logLevel
    timestamp := env.now }

/-- `Logger.sendWebhook`: no-op on empty URL; otherwise marshal the
payload (report a marshal error at ERR severity and abort), POST it with
content type `application/json`, report a transport error or a non-200
status at ERR severity. -/
def Logger.sendWebhook (l : Logger) (env : Env) (logLevel format : String) (v : List String) :
    List Event :=
  if l.WebhookConfig.URL = "" then []
  else
    match env.marshal (mkPayload l env logLevel format v) with
    | Except.error e => l.Log ERR "Failed to marshal webhook payload: %v" [e]
    | Except.ok jsonPayload =>
      Event.post l.WebhookConfig.URL "application/json" jsonPayload ::
      match env.post l.WebhookConfig.URL "application/json" jsonPayload with
      | PostResult.transportError e => l.Log ERR "Failed to send webhook: %v" [e]
      | PostResult.response statusCode status =>
        if statusCode ≠ 200 then l.Log ERR "Webhook responded with status: %s" [status]
        else []

/-- `Logger.LogInfo`. -/
def Logger.LogInfo (l : Logger) (format : String) (v : List String) : List Event :=
  l.Log INFO format v

/-- `Logger.LogDebug`. -/
def Logger.LogDebug (l : Logger) (format : String) (v : List String) : List Event :=
  l.Log DEBUG format v

/-- `Logger.LogError`: build `err := fmt.Errorf(format, v...)`; if a capture
callback is set, invoke it with `fmt.Errorf("\x7b%s\x7d => %w", l.LogContextName, err)`;
emit at ERR; then webhook if `SendError`. -/
def Logger.LogError (l : Logger) (env : Env) (format : String) (v : List String) : List Event :=
  let err := sprintf format v
  (if l.hasCaptureExceptionFunc then
    [Event.callback (sprintf "\x7b%s\x7d => %w" [l.LogContextName, err])]
  else []) ++
  l.Log ERR format v ++
  (if l.WebhookConfig.SendError then l.sendWebhook env ERR format v else [])

/-- `Logger.LogFatal`: same as `LogError` but gated on `SendFatal`, and
ending in `os.Exit(1)`. -/
def Logger.LogFatal (l : Logger) (env : Env) (format : String) (v : List String) : List Event :=
  let err := sprintf format v
  ((if l.hasCaptureExceptionFunc then
    [Event.callback (sprintf "\x7b%s\x7d => %w" [l.LogContextName, err])]
  else []) ++
  l.Log ERR format v ++
  (if l.WebhookConfig.SendFatal then l.sendWebhook env ERR format v else [])) ++
  [Event.exit 1]

/-- `Logger.LogWarn`: emit at WARN, then webhook if `SendWarn`. -/
def Logger.LogWarn (l : Logger) (env : Env) (format : String) (v : List String) : List Event :=
  l.Log WARN format v ++
  (if l.WebhookConfig.SendWarn then l.sendWebhook env WARN format v else [])

/-- Lower-case hex digit, for `\u00XX` escapes. -/
def hexDigit (n : Nat) : Char :=
  if n < 10 then Char.ofNat (48 + n) else Char.ofNat (87 + n)

/-- Go `encoding/json` escaping of one character inside a string value:
quote, backslash, the common control characters, HTML-unsafe `<` `>` `&`
(escaped by default by `json.Marshal`), other control characters as
`\u00XX`, and the line separators U+2028/U+2029. -/
def jsonEscapeChar (c : Char) : List Char :=
  if c = '"' then ['\\', '"']
  else if c = '\\' then ['\\', '\\']
  else if c = '\n' then ['\\', 'n']
  else if c = '\r' then ['\\', 'r']
  else if c = '\t' then ['\\', 't']
  else if c = '<' then "\\u003c".data
  else if c = '>' then "\\u003e".data
  else if c = '&' then "\\u0026".data
  else if c.toNat < 32 then
    ['\\', 'u', '0', '0', hexDigit (c.toNat / 16), hexDigit (c.toNat % 16)]
  else if c.toNat = 0x2028 then "\\u2028".data
  else if c.toNat = 0x2029 then "\\u2029".data
  else [c]

/-- Go `encoding/json` escaping of a string value. -/
def jsonEscape (s : String) : String :=
  String.mk ((s.data.map jsonEscapeChar).flatten)

/-- Render a JSON object with the given string-valued fields, in order,
as `json.Marshal` does for a struct of string fields. -/
def renderObj (fields : List (String × String)) : String :=
  "\x7b" ++
    String.intercalate ","
      (fields.map (fun f => "\"" ++ jsonEscape f.1 ++ "\":\"" ++ jsonEscape f.2 ++ "\"")) ++
  "\x7d"

/-- The field list of the webhook payload, in the struct's declaration
order with its `json:"..."` tags. -/
def payloadFields (p : Payload) : List (String × String) :=
  [("serviceName", p.serviceName), ("logContextName", p.logContextName),
   ("message", p.message), ("level", p.level), ("timestamp", p.timestamp)]

/-- The behaviour of `json.Marshal` on the payload struct: all fields are
strings, so marshalling always succeeds and yields the five-field object. -/
def goMarshal (p : Payload) : Except String String :=
  Except.ok (renderObj (payloadFields p))

/-- An environment whose JSON encoder behaves like `json.Marshal` does on
this payload (it never fails on a struct of plain string fields). -/
def Env.realMarshal (env : Env) : Prop :=
  ∀ p, env.marshal p = goMarshal p

/-! ### Helper lemmas about single calls -/

/-- The error wrapping `fmt.Errorf("\x7b%s\x7d => %w", ctx, err)` concatenates
the context name and the wrapped error's text. -/
theorem sprintf_wrap (a b : String) :
    sprintf "\x7b%s\x7d => %w" [a, b] = "\x7b" ++ a ++ "\x7d => " ++ b := by
  apply String.ext
  show sprintfAux ("\x7b%s\x7d => %w".data) [a, b] = _
  simp [sprintfAux, String.data_append]

/-- The core emit routine never performs an HTTP POST. -/
theorem Log_filter_post (l : Logger) (logLevel format : String) (v : List String) :
    (l.Log logLevel format v).filter isPost = [] := by
  unfold Logger.Log; split <;> rfl

/-- The core emit routine never exits the process. -/
theorem Log_filter_exit (l : Logger) (logLevel format : String) (v : List String) :
    (l.Log logLevel format v).filter isExit = [] := by
  unfold Logger.Log; split <;> rfl

/-- The core emit routine never invokes the capture callback. -/
theorem Log_filter_callback (l : Logger) (logLevel format : String) (v : List String) :
    (l.Log logLevel format v).filter isCallback = [] := by
  unfold Logger.Log; split <;> rfl

/-- A non-DEBUG level is always emitted: exactly one line to the sink. -/
theorem Log_ne_DEBUG (l : Logger) (logLevel format : String) (v : List String)
    (h : logLevel ≠ DEBUG) :
    l.Log logLevel format v = [Event.emit (logLine l logLevel format v)] := by
  unfold Logger.Log
  rw [if_neg]
  rintro ⟨h1, _⟩
  exact h h1

/-- ERR is always emitted. -/
theorem Log_ERR (l : Logger) (format : String) (v : List String) :
    l.Log ERR format v = [Event.emit (logLine l ERR format v)] :=
  Log_ne_DEBUG l ERR format v (by decide)

/-- An empty webhook URL makes `sendWebhook` a no-op. -/
theorem sendWebhook_empty_url (l : Logger) (env : Env) (logLevel format : String)
    (v : List String) (h : l.WebhookConfig.URL = "") :
    l.sendWebhook env logLevel format v = [] := by
  unfold Logger.sendWebhook
  rw [if_pos h]

/-- `sendWebhook` never exits the process, whatever the environment does. -/
theorem sendWebhook_filter_exit (l : Logger) (env : Env) (logLevel format : String)
    (v : List String) :
    (l.sendWebhook env logLevel format v).filter isExit = [] := by
  unfold Logger.sendWebhook
  split
  · rfl
  · split
    · exact Log_filter_exit ..
    · rw [List.filter_cons_of_neg (by simp [isExit])]
      split
      · exact Log_filter_exit ..
      · split
        · exact Log_filter_exit ..
        · rfl

/-- `sendWebhook` never invokes the capture callback, whatever the
environment does (in particular the webhook error-reporting path does not). -/
theorem sendWebhook_filter_callback (l : Logger) (env : Env) (logLevel format : String)
    (v : List String) :
    (l.sendWebhook env logLevel format v).filter isCallback = [] := by
  unfold Logger.sendWebhook
  split
  · rfl
  · split
    · exact Log_filter_callback ..
    · rw [List.filter_cons_of_neg (by simp [isCallback])]
      split
      · exact Log_filter_callback ..
      · split
        · exact Log_filter_callback ..
        · rfl

/-- With a non-empty URL and the real JSON encoder, `sendWebhook` performs
exactly one POST: to the configured URL, with content type
`application/json`, carrying the rendered payload. -/
theorem sendWebhook_filter_post (l : Logger) (env : Env) (logLevel format : String)
    (v : List String) (hm : env.realMarshal) (hurl : l.WebhookConfig.URL ≠ "") :
    (l.sendWebhook env logLevel format v).filter isPost =
      [Event.post l.WebhookConfig.URL "application/json"
        (renderObj (payloadFields (mkPayload l env logLevel format v)))] := by
  unfold Logger.sendWebhook
  rw [if_neg hurl, hm]
  show (List.filter isPost
    (Event.post l.WebhookConfig.URL "application/json"
      (renderObj (payloadFields (mkPayload l env logLevel format v))) :: _)) = _
  rw [List.filter_cons_of_pos (by rfl)]
  split
  · rw [Log_filter_post]
  · split
    · rw [Log_filter_post]
    · rfl

/-- With a non-empty URL and the real JSON encoder, `sendWebhook` starts
with its POST event. -/
theorem sendWebhook_cons (l : Logger) (env : Env) (logLevel format : String)
    (v : List String) (hm : env.realMarshal) (hurl : l.WebhookConfig.URL ≠ "") :
    ∃ rest, l.sendWebhook env logLevel format v =
      Event.post l.WebhookConfig.URL "application/json"
        (renderObj (payloadFields (mkPayload l env logLevel format v))) :: rest := by
  unfold Logger.sendWebhook
  rw [if_neg hurl, hm]
  exact ⟨_, rfl⟩

/-- Every POST event of `sendWebhook` (with the real JSON encoder) targets
the configured URL with content type `application/json` and the rendered
payload body. -/
theorem sendWebhook_post_mem (l : Logger) (env : Env) (logLevel format : String)
    (v : List String) (hm : env.realMarshal) :
    ∀ url ct body, Event.post url ct body ∈ l.sendWebhook env logLevel format v →
      url = l.WebhookConfig.URL ∧ ct = "application/json" ∧
      body = renderObj (payloadFields (mkPayload l env logLevel format v)) := by
  intro url ct body hmem
  by_cases hurl : l.WebhookConfig.URL = ""
  · rw [sendWebhook_empty_url l env logLevel format v hurl] at hmem
    cases hmem
  · have hfil : Event.post url ct body ∈
        (l.sendWebhook env logLevel format v).filter isPost :=
      List.mem_filter.mpr ⟨hmem, rfl⟩
    rw [sendWebhook_filter_post l env logLevel format v hm hurl] at hfil
    rcases List.mem_singleton.mp hfil with h
    cases h
    exact ⟨rfl, rfl, rfl⟩

/-! ### Concrete fixtures used by the witnesses -/

/-- A webhook configuration with all severities enabled and a non-empty URL. -/
def cfgEx : WebhookConfig :=
  { URL := "https://hooks.example.com/log"
    SendError := true
    SendFatal := true
    SendWarn := true }

/-- A logger with a registered capture callback and webhooks enabled. -/
def lEx : Logger :=
  { ServiceName := "svc"
    LogContextName := "ctx"
    DebugEnabled := false
    hasCaptureExceptionFunc := true
    WebhookConfig := cfgEx }

/-- A logger without a capture callback. -/
def lNoCb : Logger :=
  { ServiceName := "svc"
    LogContextName := "ctx"
    DebugEnabled := false
    hasCaptureExceptionFunc := false
    WebhookConfig := cfgEx }

/-- A healthy environment: real JSON encoder, endpoint answering 200. -/
def envOk : Env :=
  { now := "2025-04-22T10:00:00Z"
    marshal := goMarshal
    post := fun _ _ _ => PostResult.response 200 "200 OK" }

/-- An environment whose JSON encoder fails. -/
def envMarshalFail : Env :=
  { now := "2025-04-22T10:00:00Z"
    marshal := fun _ => Except.error "boom"
    post := fun _ _ _ => PostResult.response 200 "200 OK" }

/-- An environment whose transport fails. -/
def envDown : Env :=
  { now := "2025-04-22T10:00:00Z"
    marshal := goMarshal
    post := fun _ _ _ => PostResult.transportError "connection refused" }

/-- An environment answering with a non-200 status. -/
def envHttp500 : Env :=
  { now := "2025-04-22T10:00:00Z"
    marshal := goMarshal
    post := fun _ _ _ => PostResult.response 500 "500 Internal Server Error" }

/-! ### The claims -/

/-- Under the real JSON encoder, the number of POST events of the
conditional webhook part of a severity method is 1 exactly when the send
flag is set and the URL is non-empty. -/
theorem webhookPart_post_len (l : Logger) (env : Env) (logLevel format : String)
    (v : List String) (hm : env.realMarshal) (flag : Bool) :
    ((if flag then l.sendWebhook env logLevel format v else []).filter isPost).length =
      if flag = true ∧ l.WebhookConfig.URL ≠ "" then 1 else 0 := by
  cases flag with
  | false => simp
  | true =>
    by_cases hurl : l.WebhookConfig.URL = ""
    · rw [if_pos rfl, sendWebhook_empty_url l env logLevel format v hurl]
      simp [hurl]
    · rw [if_pos rfl, sendWebhook_filter_post l env logLevel format v hm hurl]
      simp [hurl]

/-- Claim C1: for every `LogWarn`, `LogError` and `LogFatal` call, an HTTP
POST to the webhook endpoint is attempted iff the corresponding send flag
(`SendWarn`, `SendError`, `SendFatal`) is true and the webhook URL is
non-empty: the trace then holds exactly one POST event, and zero POST
events otherwise (false flag with non-empty URL, or empty URL with any
flags). -/
theorem c1_webhook_gating (l : Logger) (env : Env) (format : String) (v : List String)
    (hm : env.realMarshal) :
    ((l.LogWarn env format v).filter isPost).length =
      (if l.WebhookConfig.SendWarn = true ∧ l.WebhookConfig.URL ≠ "" then 1 else 0) ∧
    ((l.LogError env format v).filter isPost).length =
      (if l.WebhookConfig.SendError = true ∧ l.WebhookConfig.URL ≠ "" then 1 else 0) ∧
    ((l.LogFatal env format v).filter isPost).length =
      (if l.WebhookConfig.SendFatal = true ∧ l.WebhookConfig.URL ≠ "" then 1 else 0) := by
  refine ⟨?_, ?_, ?_⟩
  · rw [Logger.LogWarn, List.filter_append, Log_filter_post]
    simpa using webhookPart_post_len l env WARN format v hm l.WebhookConfig.SendWarn
  · rw [Logger.LogError]
    rw [List.filter_append, List.filter_append, Log_filter_post]
    have hcb : (List.filter isPost
        (if l.hasCaptureExceptionFunc then
          [Event.callback (sprintf "\x7b%s\x7d => %w" [l.LogContextName, sprintf format v])]
        else [])) = [] := by
      split <;> rfl
    rw [hcb]
    simpa using webhookPart_post_len l env ERR format v hm l.WebhookConfig.SendError
  · rw [Logger.LogFatal]
    rw [List.filter_append, List.filter_append, List.filter_append, Log_filter_post]
    have hcb : (List.filter isPost
        (if l.hasCaptureExceptionFunc then
          [Event.callback (sprintf "\x7b%s\x7d => %w" [l.LogContextName, sprintf format v])]
        else [])) = [] := by
      split <;> rfl
    rw [hcb]
    simpa using webhookPart_post_len l env ERR format v hm l.WebhookConfig.SendFatal

/-- Witness for C1 at a concrete logger (all flags set, non-empty URL) and
a healthy environment. -/
theorem c1_webhook_gating_witness :
    envOk.realMarshal ∧
    (((lEx.LogWarn envOk "hello %s" ["world"]).filter isPost).length =
      (if lEx.WebhookConfig.SendWarn = true ∧ lEx.WebhookConfig.URL ≠ "" then 1 else 0) ∧
    ((lEx.LogError envOk "hello %s" ["world"]).filter isPost).length =
      (if lEx.WebhookConfig.SendError = true ∧ lEx.WebhookConfig.URL ≠ "" then 1 else 0) ∧
    ((lEx.LogFatal envOk "hello %s" ["world"]).filter isPost).length =
      (if lEx.WebhookConfig.SendFatal = true ∧ lEx.WebhookConfig.URL ≠ "" then 1 else 0)) :=
  ⟨fun _ => rfl, c1_webhook_gating lEx envOk "hello %s" ["world"] (fun _ => rfl)⟩

/-- Claim C2: every webhook delivery failure is recovered locally.  A JSON
marshal error, a transport-level error, and a non-200 response each make
the delivery attempt end with exactly one ERR-severity emission to the
output sink (carrying the error or the status text), with no further POST
event, no callback, and no exit — the error-reporting path never recurses
into webhook delivery, and `sendWebhook` is a total function, so nothing
propagates to the caller. -/
theorem c2_failure_isolation (l : Logger) (env : Env) (logLevel format : String)
    (v : List String) (hurl : l.WebhookConfig.URL ≠ "") :
    (∀ e, env.marshal (mkPayload l env logLevel format v) = Except.error e →
      l.sendWebhook env logLevel format v =
        [Event.emit (logLine l ERR "Failed to marshal webhook payload: %v" [e])]) ∧
    (∀ body e, env.marshal (mkPayload l env logLevel format v) = Except.ok body →
      env.post l.WebhookConfig.URL "application/json" body = PostResult.transportError e →
      l.sendWebhook env logLevel format v =
        [Event.post l.WebhookConfig.URL "application/json" body,
         Event.emit (logLine l ERR "Failed to send webhook: %v" [e])]) ∧
    (∀ body statusCode status,
      env.marshal (mkPayload l env logLevel format v) = Except.ok body →
      env.post l.WebhookConfig.URL "application/json" body =
        PostResult.response statusCode status →
      statusCode ≠ 200 →
      l.sendWebhook env logLevel format v =
        [Event.post l.WebhookConfig.URL "application/json" body,
         Event.emit (logLine l ERR "Webhook responded with status: %s" [status])]) := by
  refine ⟨?_, ?_, ?_⟩
  · intro e hmarshal
    rw [Logger.sendWebhook, if_neg hurl, hmarshal]
    show l.Log ERR "Failed to marshal webhook payload: %v" [e] = _
    rw [Log_ERR]
  · intro body e hmarshal hpost
    rw [Logger.sendWebhook, if_neg hurl, hmarshal]
    show Event.post _ _ _ ::
      (match env.post l.WebhookConfig.URL "application/json" body with
        | PostResult.transportError e => l.Log ERR "Failed to send webhook: %v" [e]
        | PostResult.response statusCode status =>
          if statusCode ≠ 200 then l.Log ERR "Webhook responded with status: %s" [status]
          else []) = _
    rw [hpost]
    show Event.post _ _ _ :: l.Log ERR "Failed to send webhook: %v" [e] = _
    rw [Log_ERR]
  · intro body statusCode status hmarshal hpost hcode
    rw [Logger.sendWebhook, if_neg hurl, hmarshal]
    show Event.post _ _ _ ::
      (match env.post l.WebhookConfig.URL "application/json" body with
        | PostResult.transportError e => l.Log ERR "Failed to send webhook: %v" [e]
        | PostResult.response statusCode status =>
          if statusCode ≠ 200 then l.Log ERR "Webhook responded with status: %s" [status]
          else []) = _
    rw [hpost]
    show Event.post _ _ _ ::
      (if statusCode ≠ 200 then l.Log ERR "Webhook responded with status: %s" [status]
       else []) = _
    rw [if_pos hcode, Log_ERR]

/-- Witness for C2: a marshal failure, a transport failure and an HTTP 500,
each at a concrete logger and environment. -/
theorem c2_failure_isolation_witness :
    lEx.sendWebhook envMarshalFail ERR "m" [] =
      [Event.emit (logLine lEx ERR "Failed to marshal webhook payload: %v" ["boom"])] ∧
    lEx.sendWebhook envDown ERR "m" [] =
      [Event.post lEx.WebhookConfig.URL "application/json"
        (renderObj (payloadFields (mkPayload lEx envDown ERR "m" []))),
       Event.emit (logLine lEx ERR "Failed to send webhook: %v" ["connection refused"])] ∧
    lEx.sendWebhook envHttp500 ERR "m" [] =
      [Event.post lEx.WebhookConfig.URL "application/json"
        (renderObj (payloadFields (mkPayload lEx envHttp500 ERR "m" []))),
       Event.emit (logLine lEx ERR "Webhook responded with status: %s"
         ["500 Internal Server Error"])] :=
  ⟨(c2_failure_isolation lEx envMarshalFail ERR "m" [] (by decide)).1 "boom" rfl,
   (c2_failure_isolation lEx envDown ERR "m" [] (by decide)).2.1
     (renderObj (payloadFields (mkPayload lEx envDown ERR "m" []))) "connection refused" rfl rfl,
   (c2_failure_isolation lEx envHttp500 ERR "m" [] (by decide)).2.2
     (renderObj (payloadFields (mkPayload lEx envHttp500 ERR "m" [])))
     500 "500 Internal Server Error" rfl rfl (by decide)⟩

/-- Claim C3: the core emit routine `Log` is a no-op (empty trace) when the
severity is DEBUG and `DebugEnabled` is false, and otherwise writes exactly
one line to the output sink, whatever `DebugEnabled` is. -/
theorem c3_debug_filter (l : Logger) (logLevel format : String) (v : List String) :
    (logLevel = DEBUG ∧ l.DebugEnabled = false → l.Log logLevel format v = []) ∧
    (logLevel ≠ DEBUG ∨ l.DebugEnabled = true →
      l.Log logLevel format v = [Event.emit (logLine l logLevel format v)]) := by
  constructor
  · intro h
    rw [Logger.Log, if_pos h]
  · intro h
    rw [Logger.Log, if_neg]
    rintro ⟨h1, h2⟩
    rcases h with h | h
    · exact h h1
    · rw [h] at h2
      cases h2

/-- Witness for C3: a DEBUG call with `DebugEnabled = false` emits nothing;
an INFO call on the same logger emits one line; a DEBUG call with
`DebugEnabled = true` emits one line. -/
theorem c3_debug_filter_witness :
    lEx.Log DEBUG "m" [] = [] ∧
    lEx.Log INFO "m" [] = [Event.emit (logLine lEx INFO "m" [])] ∧
    (NewLogger "svc" "ctx" true cfgEx).Log DEBUG "m" [] =
      [Event.emit (logLine (NewLogger "svc" "ctx" true cfgEx) DEBUG "m" [])] :=
  ⟨(c3_debug_filter lEx DEBUG "m" []).1 ⟨rfl, rfl⟩,
   (c3_debug_filter lEx INFO "m" []).2 (Or.inl (by decide)),
   (c3_debug_filter (NewLogger "svc" "ctx" true cfgEx) DEBUG "m" []).2 (Or.inr rfl)⟩

/-- Claim C4: on a logger with a registered capture callback, webhook
delivery enabled and a working JSON encoder, `LogError` and `LogFatal`
perform their side effects in this strict order: the capture callback
first, then the console emission, then the webhook POST attempt. -/
theorem c4_ordering (l : Logger) (env : Env) (format : String) (v : List String)
    (hcb : l.hasCaptureExceptionFunc = true)
    (hurl : l.WebhookConfig.URL ≠ "") (hm : env.realMarshal) :
    (l.WebhookConfig.SendError = true →
      ∃ rest, l.LogError env format v =
        Event.callback (sprintf "\x7b%s\x7d => %w" [l.LogContextName, sprintf format v]) ::
        Event.emit (logLine l ERR format v) ::
        Event.post l.WebhookConfig.URL "application/json"
          (renderObj (payloadFields (mkPayload l env ERR format v))) :: rest) ∧
    (l.WebhookConfig.SendFatal = true →
      ∃ rest, l.LogFatal env format v =
        Event.callback (sprintf "\x7b%s\x7d => %w" [l.LogContextName, sprintf format v]) ::
        Event.emit (logLine l ERR format v) ::
        Event.post l.WebhookConfig.URL "application/json"
          (renderObj (payloadFields (mkPayload l env ERR format v))) :: rest) := by
  obtain ⟨tail, htail⟩ := sendWebhook_cons l env ERR format v hm hurl
  constructor
  · intro hsend
    refine ⟨tail, ?_⟩
    rw [Logger.LogError, hcb, if_pos rfl, hsend, if_pos rfl, Log_ERR, htail]
    rfl
  · intro hsend
    refine ⟨tail ++ [Event.exit 1], ?_⟩
    rw [Logger.LogFatal, hcb, if_pos rfl, hsend, if_pos rfl, Log_ERR, htail]
    simp

/-- Witness for C4 at a concrete logger (callback registered, both flags
set, non-empty URL) and a healthy environment. -/
theorem c4_ordering_witness :
    lEx.hasCaptureExceptionFunc = true ∧ lEx.WebhookConfig.URL ≠ "" ∧
    envOk.realMarshal ∧ lEx.WebhookConfig.SendError = true ∧
    lEx.WebhookConfig.SendFatal = true ∧
    ((∃ rest, lEx.LogError envOk "m" [] =
        Event.callback (sprintf "\x7b%s\x7d => %w" [lEx.LogContextName, sprintf "m" []]) ::
        Event.emit (logLine lEx ERR "m" []) ::
        Event.post lEx.WebhookConfig.URL "application/json"
          (renderObj (payloadFields (mkPayload lEx envOk ERR "m" []))) :: rest) ∧
     (∃ rest, lEx.LogFatal envOk "m" [] =
        Event.callback (sprintf "\x7b%s\x7d => %w" [lEx.LogContextName, sprintf "m" []]) ::
        Event.emit (logLine lEx ERR "m" []) ::
        Event.post lEx.WebhookConfig.URL "application/json"
          (renderObj (payloadFields (mkPayload lEx envOk ERR "m" []))) :: rest)) :=
  ⟨rfl, by decide, fun _ => rfl, rfl, rfl,
   ⟨(c4_ordering lEx envOk "m" [] rfl (by decide) (fun _ => rfl)).1 rfl,
    (c4_ordering lEx envOk "m" [] rfl (by decide) (fun _ => rfl)).2 rfl⟩⟩

/-- Claim C5: every `LogFatal` trace ends in `os.Exit(1)` — a non-zero
exit — and that exit is the only one and comes after every other side
effect (callback, console emission, webhook attempt); no code path through
`LogFatal` returns without it. -/
theorem c5_fatal_exits_last (l : Logger) (env : Env) (format : String) (v : List String) :
    ∃ pre, l.LogFatal env format v = pre ++ [Event.exit 1] ∧ pre.filter isExit = [] := by
  refine ⟨_, rfl, ?_⟩
  rw [List.filter_append, List.filter_append, Log_filter_exit]
  have h1 : (List.filter isExit
      (if l.hasCaptureExceptionFunc then
        [Event.callback (sprintf "\x7b%s\x7d => %w" [l.LogContextName, sprintf format v])]
      else [])) = [] := by
    split <;> rfl
  have h2 : (List.filter isExit
      (if l.WebhookConfig.SendFatal then l.sendWebhook env ERR format v else [])) = [] := by
    split
    · exact sendWebhook_filter_exit ..
    · rfl
  rw [h1, h2]
  rfl

/-- Claim C6: `LogError` invokes the capture callback exactly once when one
is registered — with error text `\x7b<contextName>\x7d => <formatted message>` —
and never when none is registered, whatever the webhook path does. -/
theorem c6_capture_callback (l : Logger) (env : Env) (format : String) (v : List String) :
    (l.hasCaptureExceptionFunc = true →
      (l.LogError env format v).filter isCallback =
        [Event.callback ("\x7b" ++ l.LogContextName ++ "\x7d => " ++ sprintf format v)]) ∧
    (l.hasCaptureExceptionFunc = false →
      (l.LogError env format v).filter isCallback = []) := by
  have hwh : (List.filter isCallback
      (if l.WebhookConfig.SendError then l.sendWebhook env ERR format v else [])) = [] := by
    split
    · exact sendWebhook_filter_callback ..
    · rfl
  constructor
  · intro hcb
    rw [Logger.LogError, hcb, if_pos rfl, List.filter_append, List.filter_append,
      Log_filter_callback, hwh, sprintf_wrap]
    rfl
  · intro hcb
    rw [Logger.LogError, hcb, if_neg (by simp), List.filter_append, List.filter_append,
      Log_filter_callback, hwh]
    rfl

/-- Witness for C6: with the callback registered the trace holds exactly
the wrapped error text; without it, no callback event. -/
theorem c6_capture_callback_witness :
    (lEx.LogError envOk "hello %s" ["world"]).filter isCallback =
      [Event.callback ("\x7b" ++ lEx.LogContextName ++ "\x7d => " ++ sprintf "hello %s" ["world"])] ∧
    (lNoCb.LogError envOk "hello %s" ["world"]).filter isCallback = [] :=
  ⟨(c6_capture_callback lEx envOk "hello %s" ["world"]).1 rfl,
   (c6_capture_callback lNoCb envOk "hello %s" ["world"]).2 rfl⟩

/-- Claim C7: with a non-empty URL and the JSON encoder behaving as
`json.Marshal` does on this payload, a webhook delivery attempt issues
exactly one POST, with content type `application/json`, whose body is the
JSON object with exactly the fields `serviceName`, `logContextName`,
`message`, `level` and `timestamp` — the logger's identity fields, the
formatted message, the triggering severity's label, and the wall-clock
RFC3339 timestamp taken at the delivery attempt. -/
theorem c7_payload_shape (l : Logger) (env : Env) (logLevel format : String)
    (v : List String) (hurl : l.WebhookConfig.URL ≠ "") (hm : env.realMarshal) :
    (l.sendWebhook env logLevel format v).filter isPost =
      [Event.post l.WebhookConfig.URL "application/json"
        (renderObj
          [("serviceName", l.ServiceName), ("logContextName", l.LogContextName),
           ("message", sprintf format v), ("level", logLevel), ("timestamp", env.now)])] := by
  rw [sendWebhook_filter_post l env logLevel format v hm hurl]
  rfl

/-- Witness for C7 at a concrete logger and healthy environment. -/
theorem c7_payload_shape_witness :
    lEx.WebhookConfig.URL ≠ "" ∧ envOk.realMarshal ∧
    (lEx.sendWebhook envOk WARN "hello %s" ["world"]).filter isPost =
      [Event.post lEx.WebhookConfig.URL "application/json"
        (renderObj
          [("serviceName", lEx.ServiceName), ("logContextName", lEx.LogContextName),
           ("message", sprintf "hello %s" ["world"]), ("level", WARN),
           ("timestamp", envOk.now)])] :=
  ⟨by decide, fun _ => rfl,
   c7_payload_shape lEx envOk WARN "hello %s" ["world"] (by decide) (fun _ => rfl)⟩

/-- The POST events of `LogFatal` are those of its conditional webhook part. -/
theorem LogFatal_filter_post (l : Logger) (env : Env) (format : String) (v : List String) :
    (l.LogFatal env format v).filter isPost =
      (if l.WebhookConfig.SendFatal then l.sendWebhook env ERR format v else []).filter
        isPost := by
  rw [Logger.LogFatal, List.filter_append, List.filter_append, List.filter_append,
    Log_filter_post]
  have hcb : (List.filter isPost
      (if l.hasCaptureExceptionFunc then
        [Event.callback (sprintf "\x7b%s\x7d => %w" [l.LogContextName, sprintf format v])]
      else [])) = [] := by
    split <;> rfl
  rw [hcb]
  simp [isPost]

/-- Claim C8: a `LogFatal` call is indistinguishable from a `LogError` call
in all emitted output (same console line at the ERR marker, same webhook
level field), since no FATAL label exists: with equal send flags the fatal
trace is exactly the error trace followed by the exit, the console line it
emits is the ERR line, and every webhook POST body it produces carries the
ERR-level payload. -/
theorem c8_fatal_err_label (l : Logger) (env : Env) (format : String) (v : List String)
    (hEq : l.WebhookConfig.SendFatal = l.WebhookConfig.SendError)
    (hm : env.realMarshal) :
    l.LogFatal env format v = l.LogError env format v ++ [Event.exit 1] ∧
    Event.emit (logLine l ERR format v) ∈ l.LogFatal env format v ∧
    (∀ url ct body, Event.post url ct body ∈ l.LogFatal env format v →
      body = renderObj (payloadFields (mkPayload l env ERR format v))) := by
  refine ⟨?_, ?_, ?_⟩
  · rw [Logger.LogFatal, Logger.LogError, hEq]
  · rw [Logger.LogFatal, Log_ERR]
    simp
  · intro url ct body hmem
    have hfil : Event.post url ct body ∈ (l.LogFatal env format v).filter isPost :=
      List.mem_filter.mpr ⟨hmem, rfl⟩
    rw [LogFatal_filter_post] at hfil
    revert hfil
    split
    · intro hfil
      exact (sendWebhook_post_mem l env ERR format v hm url ct body
        (List.mem_filter.mp hfil).1).2.2
    · intro hfil
      cases hfil

/-- Witness for C8 at a concrete logger (both flags true) and healthy
environment. -/
theorem c8_fatal_err_label_witness :
    lEx.WebhookConfig.SendFatal = lEx.WebhookConfig.SendError ∧ envOk.realMarshal ∧
    (lEx.LogFatal envOk "m" [] = lEx.LogError envOk "m" [] ++ [Event.exit 1] ∧
     Event.emit (logLine lEx ERR "m" []) ∈ lEx.LogFatal envOk "m" [] ∧
     (∀ url ct body, Event.post url ct body ∈ lEx.LogFatal envOk "m" [] →
       body = renderObj (payloadFields (mkPayload lEx envOk ERR "m" [])))) :=
  ⟨rfl, fun _ => rfl, c8_fatal_err_label lEx envOk "m" [] rfl (fun _ => rfl)⟩

/-- A logger whose service name contains the formatting verb `%s`. -/
def c9logger : Logger :=
  { ServiceName := "%s"
    LogContextName := "ctx"
    DebugEnabled := false
    hasCaptureExceptionFunc := false
    WebhookConfig := { URL := "", SendError := false, SendFatal := false, SendWarn := false } }

/-- Claim C9: the emit routine applies the variadic arguments to the
concatenation of service marker, severity marker and format template, so a
service name containing a `%` verb steals the arguments: for service name
`%s`, a call `Log INFO "hello %s" ["world"]` puts `world` inside the
service marker and the emitted line contains neither the literal service
name nor the correctly formatted message `hello world`. -/
theorem c9_service_name_verb :
    ∃ l : Logger,
      strContains l.ServiceName "%s" = true ∧
      l.Log INFO "hello %s" ["world"] =
        [Event.emit "\x1b[35m[world]\x1b[0m \x1b[44m[INFO]\x1b[0m hello %!s(MISSING)"] ∧
      strContains "\x1b[35m[world]\x1b[0m \x1b[44m[INFO]\x1b[0m hello %!s(MISSING)"
        "\x1b[35m[world]\x1b[0m" = true ∧
      strContains "\x1b[35m[world]\x1b[0m \x1b[44m[INFO]\x1b[0m hello %!s(MISSING)"
        "hello world" = false ∧
      strContains "\x1b[35m[world]\x1b[0m \x1b[44m[INFO]\x1b[0m hello %!s(MISSING)"
        "%s" = false := by
  refine ⟨c9logger, by decide, by decide, by decide, by decide, by decide⟩

/-- Claim C10: any severity value outside ERR, WARN and DEBUG (the level
type is a string, so such values can be passed) falls through to the
default branch of `Log`: the line is emitted unconditionally — never
filtered by `DebugEnabled` — and carries the INFO marker. -/
theorem c10_default_branch (l : Logger) (logLevel format : String) (v : List String)
    (h1 : logLevel ≠ ERR) (h2 : logLevel ≠ WARN) (h3 : logLevel ≠ DEBUG) :
    l.Log logLevel format v =
      [Event.emit (sprintf (serviceTag l ++ "\x1b[44m[INFO]\x1b[0m " ++ format) v)] := by
  rw [Log_ne_DEBUG l logLevel format v h3, logLine, severityTag,
    if_neg h1, if_neg h2, if_neg h3]

/-- Witness for C10: an undocumented severity string `TRACE` on a logger
with `DebugEnabled = false` is still emitted, with the INFO marker. -/
theorem c10_default_branch_witness :
    lEx.DebugEnabled = false ∧
    lEx.Log "TRACE" "m" [] =
      [Event.emit (sprintf (serviceTag lEx ++ "\x1b[44m[INFO]\x1b[0m " ++ "m") [])] :=
  ⟨rfl, c10_default_branch lEx "TRACE" "m" [] (by decide) (by decide) (by decide)⟩

end logger
